import Mathlib

/-!
Verification of the cast-efficiency accountant of
`src/parser/hunter/beastmastery/modules/spells/CobraShot.tsx`.

The accountant listens for Cobra Shot cast events, queries a shared
cooldown collaborator (`SpellUsable`) about the Kill Command cooldown,
commands cooldown reductions, and keeps four running counters.  The
collaborator, the global-cooldown lookup and the numeric constants live
outside the sampled sources, so they are modelled from the spec where
noted; everything else is translated directly from `CobraShot.tsx`.
-/

namespace CobraShotVerify

/-- Modelled from the spec: `COBRA_SHOT_CDR_MS`, imported by the source
from `../../constants` (not among the sampled sources).  The spec fixes
the per-cast cooldown reduction at 1000 ms ("Reduces the cooldown of
Kill Command by 1 sec", scenario "reduction-per-cast = 1000ms"). -/
def COBRA_SHOT_CDR_MS : Int := 1000

/-- Modelled from the spec: `COBRA_SHOT_FOCUS_THRESHOLD_TO_WAIT`,
imported by the source from `../../constants` (not among the sampled
sources).  The spec calls it "a fixed resource-amount threshold
constant" without giving its value; the concrete value is irrelevant to
every claim, so it is fixed here. -/
def COBRA_SHOT_FOCUS_THRESHOLD_TO_WAIT : Int := 50

/-- Modelled from the spec: the identifier `RESOURCE_TYPES.FOCUS.id` of
the tracked resource type (the lookup table `game/RESOURCE_TYPES` is not
among the sampled sources).  Only its use as a search key matters. -/
def FOCUS_ID : Nat := 2

/-- The mutable `meta` annotation bag attached to a cast event
(fields set by `onCobraShotCast`). -/
structure EventMeta where
  isInefficientCast : Bool
  inefficientCastReason : String
  deriving Repr, DecidableEq

/-- One entry of `event.classResources`: a resource type and the
amount the actor has of it at cast time. -/
structure ClassResource where
  type : Nat
  amount : Int
  deriving Repr, DecidableEq

/-- The slice of a `CastEvent` that `onCobraShotCast` reads or writes:
the optional `classResources` snapshot and the optional `meta`
annotation. -/
structure CastEvent where
  meta : Option EventMeta
  classResources : Option (List ClassResource)
  deriving Repr, DecidableEq

/-- Modelled from the spec: the cooldown state that the `SpellUsable`
collaborator (not among the sampled sources) holds for Kill Command —
"for a given ability, whether it is currently on cooldown and the
remaining cooldown duration". -/
structure SpellUsableState where
  isOnCooldown : Bool
  cooldownRemaining : Int
  deriving Repr, DecidableEq

/-- Modelled from the spec: `SpellUsable.reduceCooldown(id, amountMs) ->
appliedMs` (the collaborator is not among the sampled sources).  It
applies the requested reduction to the remaining cooldown and "reports
back how much it actually applied (may legitimately be less than
requested if already near zero)": the applied amount is capped at the
remaining cooldown. -/
def reduceCooldown (su : SpellUsableState) (amountMs : Int) :
    Int × SpellUsableState :=
  let applied := min amountMs su.cooldownRemaining
  (applied, { su with cooldownRemaining := su.cooldownRemaining - applied })

/-- The four running counters of the accountant (`CobraShot.tsx` lines
33-36), all starting at zero. -/
structure CobraShotState where
  effectiveKCReductionMs : Int
  wastedKCReductionMs : Int
  wastedCasts : Nat
  casts : Nat
  deriving Repr, DecidableEq

/-- The counters at session start: all zero. -/
def initialState : CobraShotState :=
  { effectiveKCReductionMs := 0, wastedKCReductionMs := 0,
    wastedCasts := 0, casts := 0 }

/-- JavaScript `x.toFixed(1)` for a number that is an integer (the only
case arising here, since all durations in the model are integral
milliseconds): one digit after the decimal point. -/
def toFixed1 (x : Int) : String := toString x ++ ".0"

/-- The inefficient-cast reason built in the overflow branch
(`CobraShot.tsx` line 108): it cites the remaining-cooldown cutoff
`globalCooldown + COBRA_SHOT_CDR_MS / 1000` and the focus amount of
the actor. -/
def lowFocusReason (globalCooldown amount : Int) : String :=
  "Cobra Shot cast while Kill Command\x27s cooldown was under " ++
    toFixed1 (globalCooldown + COBRA_SHOT_CDR_MS / 1000) ++
    "s remaining and you were not close to capping focus as you only had " ++
    toString amount ++ " focus."

/-- The fixed reason string of the wasted-cast branch
(`CobraShot.tsx` line 90). -/
def notOnCooldownReason : String :=
  "Cobra Shot cast while Kill Command is not on cooldown."

/-- The lookup in the overflow branch (`CobraShot.tsx` line 102):
`event.classResources?.find(resource => resource.type ===
RESOURCE_TYPES.FOCUS.id)`. -/
def findFocus (event : CastEvent) : Option ClassResource :=
  event.classResources.bind (fun rs => rs.find? (fun r => r.type == FOCUS_ID))

/-- Everything `onCobraShotCast` produces: the updated counters, the
updated collaborator state, the (possibly annotated) event, and the
amount passed to `reduceCooldown` on this cast, if any. -/
structure StepResult where
  state : CobraShotState
  spellUsable : SpellUsableState
  event : CastEvent
  reduceCommand : Option Int
  deriving Repr, DecidableEq

/-- Lines 78-84 of `CobraShot.tsx`: if `event.meta` is undefined it is
initialized to `{ isInefficientCast: false, inefficientCastReason: '' }`. -/
def initMeta (event : CastEvent) : CastEvent :=
  { event with
    meta := some (event.meta.getD
      { isInefficientCast := false, inefficientCastReason := "" }) }

/-- Translation of `CobraShot.onCobraShotCast` (`CobraShot.tsx` lines
78-113), statement by statement.  `gcd` is the value returned by
`globalCooldown.getGlobalCooldownDuration(SPELLS.COBRA_SHOT.id)` and
`su` is the collaborator state for the Kill Command cooldown at cast
time.
The early `return` on a missing focus entry (line 104) is modelled by
the inner match yielding the unannotated event: the low-focus
annotation is the only statement after that guard. -/
def onCobraShotCast (gcd : Int) (su : SpellUsableState)
    (s : CobraShotState) (event0 : CastEvent) : StepResult :=
  let event := initMeta event0
  let s := { s with casts := s.casts + 1 }
  if !su.isOnCooldown then
    let s := { s with
      wastedCasts := s.wastedCasts + 1,
      wastedKCReductionMs := s.wastedKCReductionMs + COBRA_SHOT_CDR_MS }
    let event := { event with
      meta := some { isInefficientCast := true,
                     inefficientCastReason := notOnCooldownReason } }
    { state := s, spellUsable := su, event := event, reduceCommand := none }
  else
    let killCommandCooldownRemaining := su.cooldownRemaining
    if killCommandCooldownRemaining < COBRA_SHOT_CDR_MS + gcd then
      let effectiveReductionMs := killCommandCooldownRemaining - gcd
      let rc := reduceCooldown su effectiveReductionMs
      let s := { s with
        effectiveKCReductionMs := s.effectiveKCReductionMs + rc.1,
        wastedKCReductionMs :=
          s.wastedKCReductionMs + (COBRA_SHOT_CDR_MS - effectiveReductionMs) }
      let event :=
        match findFocus event with
        | none => event
        | some resource =>
            if resource.amount < COBRA_SHOT_FOCUS_THRESHOLD_TO_WAIT then
              { event with
                meta := some { isInefficientCast := true,
                               inefficientCastReason :=
                                 lowFocusReason gcd resource.amount } }
            else event
      { state := s, spellUsable := rc.2, event := event,
        reduceCommand := some effectiveReductionMs }
    else
      let rc := reduceCooldown su COBRA_SHOT_CDR_MS
      { state := { s with
          effectiveKCReductionMs := s.effectiveKCReductionMs + rc.1 },
        spellUsable := rc.2, event := event,
        reduceCommand := some COBRA_SHOT_CDR_MS }

/-- One cast of the feeder ability as delivered to the accountant: the
looked-up GCD duration, the collaborator cooldown state at cast time,
and the cast event itself. -/
structure CastInput where
  gcd : Int
  su : SpellUsableState
  event : CastEvent

/-- Replay of a chronological sequence of Cobra Shot casts through the
accountant, threading only the counters (each cast reads the
collaborator state it was delivered with). -/
def processCasts (s : CobraShotState) : List CastInput → CobraShotState
  | [] => s
  | i :: rest => processCasts (onCobraShotCast i.gcd i.su s i.event).state rest

/-- Translation of `CobraShot.totalPossibleCDR` (`CobraShot.tsx` lines 47-49):
`Math.max(this.casts * COBRA_SHOT_CDR_MS, 1)`. -/
def totalPossibleCDR (s : CobraShotState) : Int :=
  max ((s.casts : Int) * COBRA_SHOT_CDR_MS) 1

/-- The `actual` field of `CobraShot.cdrEfficiencyCobraShotThreshold`
(`CobraShot.tsx` line 57): `effectiveKCReductionMs / totalPossibleCDR`,
as an exact rational. -/
def cdrEfficiency (s : CobraShotState) : ℚ :=
  (s.effectiveKCReductionMs : ℚ) / (totalPossibleCDR s : ℚ)

end CobraShotVerify

namespace CobraShotVerify

/-- Claim C1: on a Cobra Shot cast with Kill Command on cooldown and its
remaining cooldown strictly below the reduction amount plus the GCD, the
accountant computes effective reduction = remaining − GCD, commands the
collaborator to reduce the Kill Command cooldown by exactly that amount,
adds the collaborator-reported applied amount to the effective-reduction
total, and adds (full reduction − effective reduction) to the
wasted-reduction total. -/
theorem C1_overflow_branch (gcd : Int) (su : SpellUsableState)
    (s : CobraShotState) (e : CastEvent)
    (hcd : su.isOnCooldown = true)
    (hlt : su.cooldownRemaining < COBRA_SHOT_CDR_MS + gcd) :
    (onCobraShotCast gcd su s e).reduceCommand =
      some (su.cooldownRemaining - gcd) ∧
    (onCobraShotCast gcd su s e).state.effectiveKCReductionMs =
      s.effectiveKCReductionMs +
        (reduceCooldown su (su.cooldownRemaining - gcd)).1 ∧
    (onCobraShotCast gcd su s e).state.wastedKCReductionMs =
      s.wastedKCReductionMs +
        (COBRA_SHOT_CDR_MS - (su.cooldownRemaining - gcd)) := by
  unfold onCobraShotCast
  simp only [hcd, Bool.not_true, Bool.false_eq_true, if_false, if_pos hlt]
  exact ⟨trivial, trivial, trivial⟩

/-- Witness for C1 at the scenario from the spec: remaining = 2000 ms,
GCD = 1500 ms, reduction = 1000 ms gives a commanded reduction of
500 ms, 500 ms effective and 500 ms wasted. -/
theorem C1_overflow_branch_witness :
    (onCobraShotCast 1500 ⟨true, 2000⟩ initialState
        ⟨none, none⟩).reduceCommand = some 500 ∧
    (onCobraShotCast 1500 ⟨true, 2000⟩ initialState
        ⟨none, none⟩).state.effectiveKCReductionMs = 500 ∧
    (onCobraShotCast 1500 ⟨true, 2000⟩ initialState
        ⟨none, none⟩).state.wastedKCReductionMs = 500 := by
  have h := C1_overflow_branch 1500 ⟨true, 2000⟩ initialState
    ⟨none, none⟩ rfl (by decide)
  refine ⟨?_, ?_, ?_⟩
  · rw [h.1]; decide
  · rw [h.2.1]; decide
  · rw [h.2.2]; decide

/-- Claim C2: on a Cobra Shot cast with Kill Command not on cooldown,
the accountant increments the total-cast and wasted-cast counters by 1,
adds the full per-cast reduction to the wasted-reduction accumulator,
annotates the event as inefficient with the fixed reason string, and
stops without commanding any cooldown reduction. -/
theorem C2_wasted_cast (gcd : Int) (su : SpellUsableState)
    (s : CobraShotState) (e : CastEvent)
    (hcd : su.isOnCooldown = false) :
    (onCobraShotCast gcd su s e).state.casts = s.casts + 1 ∧
    (onCobraShotCast gcd su s e).state.wastedCasts = s.wastedCasts + 1 ∧
    (onCobraShotCast gcd su s e).state.wastedKCReductionMs =
      s.wastedKCReductionMs + COBRA_SHOT_CDR_MS ∧
    (onCobraShotCast gcd su s e).event.meta =
      some ⟨true, notOnCooldownReason⟩ ∧
    (onCobraShotCast gcd su s e).reduceCommand = none ∧
    (onCobraShotCast gcd su s e).spellUsable = su ∧
    (onCobraShotCast gcd su s e).state.effectiveKCReductionMs =
      s.effectiveKCReductionMs := by
  unfold onCobraShotCast
  simp only [hcd, Bool.not_false, if_true]
  exact ⟨trivial, trivial, trivial, trivial, trivial, trivial, trivial⟩

/-- Witness for C2: a cast with Kill Command off cooldown marks one
wasted cast, wastes the full 1000 ms and issues no reduction command. -/
theorem C2_wasted_cast_witness :
    (onCobraShotCast 1500 ⟨false, 0⟩ initialState
        ⟨none, none⟩).state.wastedCasts = 1 ∧
    (onCobraShotCast 1500 ⟨false, 0⟩ initialState
        ⟨none, none⟩).state.wastedKCReductionMs = 1000 ∧
    (onCobraShotCast 1500 ⟨false, 0⟩ initialState
        ⟨none, none⟩).event.meta = some ⟨true, notOnCooldownReason⟩ ∧
    (onCobraShotCast 1500 ⟨false, 0⟩ initialState
        ⟨none, none⟩).reduceCommand = none := by
  have h := C2_wasted_cast 1500 ⟨false, 0⟩ initialState ⟨none, none⟩ rfl
  refine ⟨?_, ?_, ?_, ?_⟩
  · rw [h.2.1]; decide
  · rw [h.2.2.1]; decide
  · rw [h.2.2.2.1]
  · rw [h.2.2.2.2.1]

/-- Claim C3: on a Cobra Shot cast with Kill Command on cooldown and
remaining cooldown at least the reduction amount plus the GCD, the
accountant commands a reduction by the full per-cast amount, adds the
collaborator-reported applied amount to the effective-reduction total,
and leaves the wasted-reduction accumulator and wasted-cast counter
unchanged. -/
theorem C3_full_reduction (gcd : Int) (su : SpellUsableState)
    (s : CobraShotState) (e : CastEvent)
    (hcd : su.isOnCooldown = true)
    (hge : COBRA_SHOT_CDR_MS + gcd ≤ su.cooldownRemaining) :
    (onCobraShotCast gcd su s e).reduceCommand = some COBRA_SHOT_CDR_MS ∧
    (onCobraShotCast gcd su s e).state.effectiveKCReductionMs =
      s.effectiveKCReductionMs + (reduceCooldown su COBRA_SHOT_CDR_MS).1 ∧
    (onCobraShotCast gcd su s e).state.wastedKCReductionMs =
      s.wastedKCReductionMs ∧
    (onCobraShotCast gcd su s e).state.wastedCasts = s.wastedCasts := by
  unfold onCobraShotCast
  simp only [hcd, Bool.not_true, Bool.false_eq_true, if_false,
    if_neg (not_lt.mpr hge)]
  exact ⟨trivial, trivial, trivial, trivial⟩

/-- Witness for C3 at the scenario from the spec: reduction 1000 ms,
GCD 1500 ms, remaining 4000 ms: the full 1000 ms is commanded and
applied, and nothing is wasted. -/
theorem C3_full_reduction_witness :
    (onCobraShotCast 1500 ⟨true, 4000⟩ initialState
        ⟨none, none⟩).reduceCommand = some 1000 ∧
    (onCobraShotCast 1500 ⟨true, 4000⟩ initialState
        ⟨none, none⟩).state.effectiveKCReductionMs = 1000 ∧
    (onCobraShotCast 1500 ⟨true, 4000⟩ initialState
        ⟨none, none⟩).state.wastedKCReductionMs = 0 ∧
    (onCobraShotCast 1500 ⟨true, 4000⟩ initialState
        ⟨none, none⟩).state.wastedCasts = 0 := by
  have h := C3_full_reduction 1500 ⟨true, 4000⟩ initialState
    ⟨none, none⟩ rfl (by decide)
  refine ⟨?_, ?_, ?_, ?_⟩
  · rw [h.1]; decide
  · rw [h.2.1]; decide
  · rw [h.2.2.1]; decide
  · rw [h.2.2.2]; decide

/-- Claim C6: there is an input — Kill Command on cooldown with
remaining cooldown strictly below the GCD of the feeder — on which the
computed effective reduction (remaining − GCD) is negative and is
passed unclamped to the reduceCooldown command of the collaborator: with
remaining = 1000 ms and GCD = 1500 ms the accountant commands a
reduction of −500 ms. -/
theorem C6_negative_reduction_unclamped :
    (1000 : Int) < 1500 ∧
    (onCobraShotCast 1500 ⟨true, 1000⟩ initialState
        ⟨none, none⟩).reduceCommand = some (1000 - 1500) ∧
    (1000 : Int) - 1500 < 0 := by decide

end CobraShotVerify

namespace CobraShotVerify

/-- The total-cast counter always goes up by one per processed cast,
whichever branch is taken. -/
theorem casts_step (gcd : Int) (su : SpellUsableState)
    (s : CobraShotState) (e : CastEvent) :
    (onCobraShotCast gcd su s e).state.casts = s.casts + 1 := by
  unfold onCobraShotCast
  rcases hb : su.isOnCooldown
  · simp only [hb, Bool.not_false, if_true]
  · simp only [hb, Bool.not_true, Bool.false_eq_true, if_false]
    split <;> rfl

/-- The wasted-cast counter goes up by one exactly on casts where Kill
Command is off cooldown. -/
theorem wastedCasts_step (gcd : Int) (su : SpellUsableState)
    (s : CobraShotState) (e : CastEvent) :
    (onCobraShotCast gcd su s e).state.wastedCasts =
      s.wastedCasts + (if su.isOnCooldown then 0 else 1) := by
  unfold onCobraShotCast
  rcases hb : su.isOnCooldown
  · simp only [hb, Bool.not_false, if_true, Bool.false_eq_true, if_false]
  · simp only [hb, Bool.not_true, Bool.false_eq_true, if_false, if_true,
      Nat.add_zero]
    split <;> rfl

/-- Over a replayed cast sequence, the total-cast counter advances by
the sequence length and the wasted-cast counter by the number of casts
with Kill Command off cooldown. -/
theorem processCasts_counts (l : List CastInput) : ∀ s : CobraShotState,
    (processCasts s l).casts = s.casts + l.length ∧
    (processCasts s l).wastedCasts =
      s.wastedCasts + l.countP (fun i => !i.su.isOnCooldown) := by
  induction l with
  | nil => intro s; simp [processCasts]
  | cons i rest ih =>
      intro s
      have h := ih (onCobraShotCast i.gcd i.su s i.event).state
      rw [processCasts] at *
      refine ⟨?_, ?_⟩
      · rw [h.1, casts_step]; simp [List.length_cons]; omega
      · rw [h.2, wastedCasts_step, List.countP_cons]
        rcases hb : i.su.isOnCooldown <;> (simp [hb]; try omega)

/-- Every cast is counted exactly once between the on-cooldown and the
off-cooldown tallies. -/
theorem countP_cooldown_split (l : List CastInput) :
    l.countP (fun i => !i.su.isOnCooldown) +
      l.countP (fun i => i.su.isOnCooldown) = l.length := by
  induction l with
  | nil => simp
  | cons i rest ih =>
      simp only [List.countP_cons, List.length_cons]
      rcases hb : i.su.isOnCooldown <;> (simp [hb]; try omega)

/-- Claim C4: for every sequence of Cobra Shot casts processed from
session start, the total-cast counter equals the wasted-cast counter
plus the number of casts at which Kill Command was on cooldown. -/
theorem C4_cast_accounting (l : List CastInput) :
    (processCasts initialState l).casts =
      (processCasts initialState l).wastedCasts +
        l.countP (fun i => i.su.isOnCooldown) := by
  have h := processCasts_counts l initialState
  have h2 := countP_cooldown_split l
  have e1 : initialState.casts = 0 := rfl
  have e2 : initialState.wastedCasts = 0 := rfl
  omega


/-- Claim C8: for a nonnegative GCD duration, any amount the accountant
passes to the reduceCooldown command of the collaborator is at most
the remaining Kill Command cooldown as just read: in the overflow branch the
request is remaining − GCD ≤ remaining, and the full-amount branch only
fires when remaining ≥ reduction + GCD. -/
theorem C8_no_overreduction (gcd : Int) (su : SpellUsableState)
    (s : CobraShotState) (e : CastEvent) (a : Int)
    (hg : 0 ≤ gcd)
    (hcmd : (onCobraShotCast gcd su s e).reduceCommand = some a) :
    a ≤ su.cooldownRemaining := by
  unfold onCobraShotCast at hcmd
  rcases hb : su.isOnCooldown
  · simp only [hb, Bool.not_false, if_true] at hcmd
    exact Option.noConfusion hcmd
  · simp only [hb, Bool.not_true, Bool.false_eq_true, if_false] at hcmd
    split at hcmd
    · obtain rfl : su.cooldownRemaining - gcd = a := Option.some.inj hcmd
      omega
    · obtain rfl : COBRA_SHOT_CDR_MS = a := Option.some.inj hcmd
      rename_i hge
      simp only [COBRA_SHOT_CDR_MS] at *
      omega

/-- Witness for C8: with GCD 1500 ms and remaining 2000 ms the
accountant commands 500 ms, which is at most the 2000 ms remaining. -/
theorem C8_no_overreduction_witness :
    (onCobraShotCast 1500 ⟨true, 2000⟩ initialState
        ⟨none, none⟩).reduceCommand = some 500 ∧
    (500 : Int) ≤ (SpellUsableState.mk true 2000).cooldownRemaining :=
  ⟨by decide, C8_no_overreduction 1500 ⟨true, 2000⟩ initialState
    ⟨none, none⟩ 500 (by decide) (by decide)⟩


/-- Initializing an already-initialized meta annotation changes
nothing. -/
theorem initMeta_idem (e : CastEvent) :
    initMeta (initMeta e) = initMeta e := rfl

/-- The meta initialization does not touch the resource snapshot, so
the focus lookup is unaffected by it. -/
theorem findFocus_initMeta (e : CastEvent) :
    findFocus (initMeta e) = findFocus e := rfl

/-- Claim C10: after onCobraShotCast processes any cast event the meta
annotation is always defined; a missing meta is initialized to
`{ isInefficientCast: false, inefficientCastReason: '' }` before any
classification (processing an event is the same as processing its
initialized form), and a meta already present is never replaced: it
either survives unchanged or has its fields overwritten by an
inefficient-cast classification. -/
theorem C10_meta_lifecycle (gcd : Int) (su : SpellUsableState)
    (s : CobraShotState) (e : CastEvent) :
    (onCobraShotCast gcd su s e).event.meta.isSome = true ∧
    (onCobraShotCast gcd su s e = onCobraShotCast gcd su s (initMeta e)) ∧
    (e.meta = none → initMeta e =
      { e with meta := some ⟨false, ""⟩ }) ∧
    (∀ m : EventMeta, e.meta = some m →
      (onCobraShotCast gcd su s e).event.meta = some m ∨
      ∃ r : String,
        (onCobraShotCast gcd su s e).event.meta = some ⟨true, r⟩) := by
  refine ⟨?_, ?_, ?_, ?_⟩
  · unfold onCobraShotCast
    rcases hb : su.isOnCooldown
    · simp only [hb, Bool.not_false, if_true]; rfl
    · simp only [hb, Bool.not_true, Bool.false_eq_true, if_false]
      split
      · cases hf : findFocus (initMeta e) with
        | none => simp only [hf]; rfl
        | some r => simp only [hf]; split <;> rfl
      · rfl
  · unfold onCobraShotCast
    rw [initMeta_idem]
  · intro hm; simp [initMeta, hm]
  · intro m hm
    unfold onCobraShotCast
    rcases hb : su.isOnCooldown
    · right
      exact ⟨notOnCooldownReason, by simp only [hb, Bool.not_false, if_true]⟩
    · simp only [hb, Bool.not_true, Bool.false_eq_true, if_false]
      split
      · cases hf : findFocus (initMeta e) with
        | none => left; simp only [hf]; simp [initMeta, hm]
        | some r =>
            simp only [hf]
            split
            · right; exact ⟨lowFocusReason gcd r.amount, rfl⟩
            · left; simp [initMeta, hm]
      · left; simp [initMeta, hm]

/-- Witness for C10: a cast event arriving without meta leaves the
handler with a defined annotation, and its initialized form is exactly
the non-inefficient default. -/
theorem C10_meta_lifecycle_witness :
    (onCobraShotCast 1500 ⟨true, 4000⟩ initialState
        ⟨none, none⟩).event.meta.isSome = true ∧
    initMeta ⟨none, none⟩ =
      { (⟨none, none⟩ : CastEvent) with meta := some ⟨false, ""⟩ } := by
  have h := C10_meta_lifecycle 1500 ⟨true, 4000⟩ initialState ⟨none, none⟩
  exact ⟨h.1, h.2.2.1 rfl⟩


/-- Claim C9: in the overflow branch (Kill Command on cooldown,
remaining < reduction + GCD), a missing focus entry in the resource
snapshot of the event silently skips the low-resource annotation — the
event keeps its (initialized) meta and the counters are already
updated — while an entry strictly below the waiting threshold gets the
cast annotated inefficient with the message citing the
remaining-cooldown cutoff and the focus amount of the actor. -/
theorem C9_focus_handling (gcd : Int) (su : SpellUsableState)
    (s : CobraShotState) (e : CastEvent)
    (hcd : su.isOnCooldown = true)
    (hlt : su.cooldownRemaining < COBRA_SHOT_CDR_MS + gcd) :
    (findFocus e = none →
      (onCobraShotCast gcd su s e).event = initMeta e ∧
      (onCobraShotCast gcd su s e).state.effectiveKCReductionMs =
        s.effectiveKCReductionMs +
          (reduceCooldown su (su.cooldownRemaining - gcd)).1 ∧
      (onCobraShotCast gcd su s e).state.wastedKCReductionMs =
        s.wastedKCReductionMs +
          (COBRA_SHOT_CDR_MS - (su.cooldownRemaining - gcd)) ∧
      (onCobraShotCast gcd su s e).state.casts = s.casts + 1) ∧
    (∀ r : ClassResource, findFocus e = some r →
      r.amount < COBRA_SHOT_FOCUS_THRESHOLD_TO_WAIT →
      (onCobraShotCast gcd su s e).event.meta =
        some ⟨true, lowFocusReason gcd r.amount⟩) := by
  constructor
  · intro hf
    unfold onCobraShotCast
    simp only [hcd, Bool.not_true, Bool.false_eq_true, if_false, if_pos hlt,
      findFocus_initMeta, hf]
    exact ⟨trivial, trivial, trivial, trivial⟩
  · intro r hf hlow
    unfold onCobraShotCast
    simp only [hcd, Bool.not_true, Bool.false_eq_true, if_false, if_pos hlt,
      findFocus_initMeta, hf, if_pos hlow]

/-- Witness for C9: with remaining 2000 ms and GCD 1500 ms, an event
with no resource snapshot passes through unannotated, while an event
holding 10 focus (below the threshold) is annotated with the low-focus
message. -/
theorem C9_focus_handling_witness :
    (onCobraShotCast 1500 ⟨true, 2000⟩ initialState
        ⟨none, none⟩).event = initMeta ⟨none, none⟩ ∧
    (onCobraShotCast 1500 ⟨true, 2000⟩ initialState
        ⟨none, some [⟨FOCUS_ID, 10⟩]⟩).event.meta =
      some ⟨true, lowFocusReason 1500 10⟩ := by
  have h1 := (C9_focus_handling 1500 ⟨true, 2000⟩ initialState
    ⟨none, none⟩ rfl (by decide)).1 rfl
  have h2 := (C9_focus_handling 1500 ⟨true, 2000⟩ initialState
    ⟨none, some [⟨FOCUS_ID, 10⟩]⟩ rfl (by decide)).2
    ⟨FOCUS_ID, 10⟩ (by decide) (by decide)
  exact ⟨h1.1, h2⟩


/-- Counterexample to C5 as stated: after one processed cast with Kill
Command on cooldown at 1000 ms remaining and a 1500 ms GCD, the
effective-reduction total is −500 ms, which does not exceed the total
possible reduction, yet the efficiency ratio is negative: the upper
bound alone does not put the ratio in [0, 1]. -/
theorem C5_ratio_counterexample :
    (processCasts initialState
        [⟨1500, ⟨true, 1000⟩, ⟨none, none⟩⟩]).effectiveKCReductionMs ≤
      totalPossibleCDR (processCasts initialState
        [⟨1500, ⟨true, 1000⟩, ⟨none, none⟩⟩]) ∧
    cdrEfficiency (processCasts initialState
        [⟨1500, ⟨true, 1000⟩, ⟨none, none⟩⟩]) < 0 := by
  have hs : processCasts initialState [⟨1500, ⟨true, 1000⟩, ⟨none, none⟩⟩] =
      ⟨-500, 1500, 0, 1⟩ := by decide
  rw [hs]
  refine ⟨by decide, ?_⟩
  norm_num [cdrEfficiency, totalPossibleCDR, COBRA_SHOT_CDR_MS]

/-- Claim C5 (amended): the efficiency ratio lies in [0, 1] given that
the effective-reduction total is nonnegative and does not exceed the
total possible reduction max(totalCasts × reductionPerCast, 1). -/
theorem C5_efficiency_unit_interval (s : CobraShotState)
    (h0 : 0 ≤ s.effectiveKCReductionMs)
    (h1 : s.effectiveKCReductionMs ≤ totalPossibleCDR s) :
    0 ≤ cdrEfficiency s ∧ cdrEfficiency s ≤ 1 := by
  have hpos : (0 : Int) < totalPossibleCDR s := by
    unfold totalPossibleCDR
    exact lt_max_of_lt_right one_pos
  unfold cdrEfficiency
  constructor
  · exact div_nonneg (by exact_mod_cast h0) (by exact_mod_cast hpos.le)
  · rw [div_le_one (by exact_mod_cast hpos)]
    exact_mod_cast h1

/-- Witness for the amended C5: one cast with 500 ms effective
reduction gives a ratio inside [0, 1]. -/
theorem C5_efficiency_unit_interval_witness :
    (0 : Int) ≤ (CobraShotState.mk 500 500 0 1).effectiveKCReductionMs ∧
    0 ≤ cdrEfficiency ⟨500, 500, 0, 1⟩ ∧
      cdrEfficiency ⟨500, 500, 0, 1⟩ ≤ 1 := by
  have h := C5_efficiency_unit_interval ⟨500, 500, 0, 1⟩
    (by decide) (by decide)
  exact ⟨by decide, h.1, h.2⟩

/-- Counterexample to C7 as stated: a cast with Kill Command on
cooldown at 1000 ms remaining and a 1500 ms GCD commands a −500 ms
reduction, and the effective-reduction total strictly decreases, so not
every counter update is non-decreasing. -/
theorem C7_monotonicity_counterexample :
    (onCobraShotCast 1500 ⟨true, 1000⟩ initialState
        ⟨none, none⟩).state.effectiveKCReductionMs <
      initialState.effectiveKCReductionMs := by decide

/-- Claim C7 (amended): the wasted-reduction total, wasted-cast count
and total-cast count are non-decreasing across every processed cast;
the effective-reduction total is also non-decreasing provided the GCD
duration is nonnegative and at most the remaining cooldown (without
that bound the commanded reduction can be negative and the total can
decrease). -/
theorem C7_monotone_counters (gcd : Int) (su : SpellUsableState)
    (s : CobraShotState) (e : CastEvent) :
    s.wastedKCReductionMs ≤
      (onCobraShotCast gcd su s e).state.wastedKCReductionMs ∧
    s.wastedCasts ≤ (onCobraShotCast gcd su s e).state.wastedCasts ∧
    s.casts ≤ (onCobraShotCast gcd su s e).state.casts ∧
    (0 ≤ gcd → gcd ≤ su.cooldownRemaining →
      s.effectiveKCReductionMs ≤
        (onCobraShotCast gcd su s e).state.effectiveKCReductionMs) := by
  unfold onCobraShotCast
  rcases hb : su.isOnCooldown
  · simp only [hb, Bool.not_false, if_true]
    refine ⟨?_, Nat.le_succ _, Nat.le_succ _, fun _ _ => le_refl _⟩
    simp only [COBRA_SHOT_CDR_MS]
    omega
  · simp only [hb, Bool.not_true, Bool.false_eq_true, if_false]
    split
    · rename_i hcase
      simp only [reduceCooldown, COBRA_SHOT_CDR_MS] at hcase ⊢
      refine ⟨by omega, le_refl _, Nat.le_succ _, fun hg hrem => by omega⟩
    · rename_i hcase
      simp only [reduceCooldown, COBRA_SHOT_CDR_MS, not_lt] at hcase ⊢
      refine ⟨le_refl _, le_refl _, Nat.le_succ _, fun hg hrem => by omega⟩

/-- Witness for the amended C7: a full-reduction cast (remaining
4000 ms, GCD 1500 ms) leaves every counter at or above its previous
value. -/
theorem C7_monotone_counters_witness :
    initialState.wastedKCReductionMs ≤
      (onCobraShotCast 1500 ⟨true, 4000⟩ initialState
        ⟨none, none⟩).state.wastedKCReductionMs ∧
    initialState.effectiveKCReductionMs ≤
      (onCobraShotCast 1500 ⟨true, 4000⟩ initialState
        ⟨none, none⟩).state.effectiveKCReductionMs := by
  have h := C7_monotone_counters 1500 ⟨true, 4000⟩ initialState ⟨none, none⟩
  exact ⟨h.1, h.2.2.2 (by decide) (by decide)⟩

end CobraShotVerify
